import Mathlib

/-!
Formal model of `plesk/utils/mail-aliases.py`, a command-line client that
manages e-mail aliases through the Plesk XML RPC API.

The Python program is embedded shallowly:

* XML documents are modelled by the inductive type `XML`; `lxml`'s
  `findall` restricted to the child-chain paths actually used by the
  program (`"./a/b/c"`) is modelled by `findall`, with a path represented
  as the list of its tags (`"."` alone is `[]`).
* Network I/O is abstracted by a `Server` oracle mapping each request body
  to the raw response body together with its parsed XML document (the
  program only ever parses the exact bytes it received, so the oracle
  returns both at once; malformed-XML parse failures play no role in the
  properties below).
* Python exceptions are modelled by `Except String` carrying the
  exception message; `argparse`'s `parser.error` (which prints the usage
  message and exits 2) and an uncaught `AttributeError` are distinguished
  constructors of `MainError`.
* `main` is modelled by `run_main`, which returns the printed stdout
  lines, the list of XML request bodies actually transmitted to the
  server (in order), and the final result.
-/

/-- Python `str.split(sep)` for a one-character separator, over a
character list: splits at every occurrence, keeping empty parts. -/
def splitChar (sep : Char) : List Char → List (List Char)
  | [] => [[]]
  | c :: cs =>
    if c = sep then [] :: splitChar sep cs
    else
      match splitChar sep cs with
      | [] => [[c]]
      | p :: ps => (c :: p) :: ps

/-- Python `s.split(sep)` for a one-character separator. -/
def pysplit (s : String) (sep : Char) : List String :=
  (splitChar sep s.toList).map List.asString

/-- Value of a nonempty all-digit run, accumulator style; `none` as soon
as a non-digit appears. -/
def digitsVal : List Char → Nat → Option Nat
  | [], acc => some acc
  | c :: cs, acc => if c.isDigit then digitsVal cs (acc * 10 + (c.toNat - 48)) else none

/-- Value of a nonempty all-digit character run. -/
def parseDigits : List Char → Option Nat
  | [] => none
  | cs => digitsVal cs 0

/-- Python `int(s)` restricted to an optional sign followed by decimal
digits; every other shape is a `ValueError` (`none`). (CPython also
accepts surrounding whitespace and inner underscores; the program only
ever converts server-provided numeric id fields, for which this model is
exact.) -/
def py_int (s : String) : Option Int :=
  match s.toList with
  | '+' :: cs => (parseDigits cs).map (fun n => (n : Int))
  | '-' :: cs => (parseDigits cs).map (fun n => -(n : Int))
  | cs => (parseDigits cs).map (fun n => (n : Int))

/-- Message of the `ValueError` raised by Python `int()` on a malformed
literal. -/
def intValueErrMsg (s : String) : String :=
  "invalid literal for int() with base 10: '" ++ s ++ "'"

/-- Message of the `TypeError` raised by Python `int(None)` (an element
with no text has `.text is None`). -/
def intNoneTypeMsg : String :=
  "int() argument must be a string, a bytes-like object or a real number, not 'NoneType'"

/-- Python `int(t)` where `t` is the optional `.text` of an lxml element. -/
def py_int_text (t : Option String) : Except String Int :=
  match t with
  | none => .error intNoneTypeMsg
  | some s =>
    match py_int s with
    | some n => .ok n
    | none => .error (intValueErrMsg s)

/-- An XML element: tag, optional text (lxml `.text`), children in
document order. -/
inductive XML where
  | elem (tag : String) (text : Option String) (children : List XML)

/-- Tag of an element. -/
def XML.tag : XML → String
  | .elem t _ _ => t

/-- Text of an element (lxml `.text`, `none` when absent). -/
def XML.text : XML → Option String
  | .elem _ s _ => s

/-- Children of an element, in document order. -/
def XML.children : XML → List XML
  | .elem _ _ c => c

/-- lxml `el.findall(path)` for the child-chain paths used by the
program: `el.findall("./a/b")` is `findall el ["a", "b"]`, and the result
list is in document order. -/
def findall : XML → List String → List XML
  | x, [] => [x]
  | x, t :: ts => (x.children.filter (fun c => c.tag = t)).flatMap (fun c => findall c ts)

/-- Message of the exception raised by `_xml_find_one`. -/
def findOneMsg : String :=
  "_xml_find_one() assumes that findall() returns exactly one result"

/-- `PleskMailAliasManager._xml_find_one`: the unique match of `path`
under `el`, or an exception when `findall` does not return exactly one
element. -/
def xml_find_one (el : XML) (path : List String) : Except String XML :=
  match findall el path with
  | [e] => .ok e
  | _ => .error findOneMsg

/-- `PleskMailAliasManager._verify_status_ok`: look up the unique
`path ++ "/status"` element (any exception is caught and turned into
`false`) and compare its text against `"ok"`. -/
def verify_status_ok (path : List String) (response : XML) : Bool :=
  match xml_find_one response (path ++ ["status"]) with
  | .error _ => false
  | .ok result => decide (result.text = some "ok")

/-- State of a `PleskApiClient` object. -/
structure PleskApiClient where
  host : String
  port : Int
  secret_key : Option String
  ssl_unverified : Bool
  login : Option String
  passwd : Option String
  deriving DecidableEq

/-- Message of the exception raised in `PleskApiClient.request` when
`ssl_unverified` is `True`. -/
def certExceptionMsg : String :=
  "Certificate exception verification can only be skipped by removing this exception"

/-- `PleskApiClient.__init__(host, port=8443, ssl_unverified=False)`.
Like every Python constructor it either raises or returns the new
object; its body consists solely of attribute assignments, so it always
returns. -/
def PleskApiClient.construct (host : String) (port : Int) (ssl_unverified : Bool) :
    Except String PleskApiClient :=
  .ok { host := host, port := port, secret_key := none, ssl_unverified := ssl_unverified,
        login := none, passwd := none }

/-- `PleskApiClient.set_credentials`. -/
def PleskApiClient.set_credentials (c : PleskApiClient) (login passwd : String) :
    PleskApiClient :=
  { c with login := some login, passwd := some passwd }

/-- `PleskApiClient.set_secret_key`. -/
def PleskApiClient.set_secret_key (c : PleskApiClient) (k : String) : PleskApiClient :=
  { c with secret_key := some k }

/-- Headers assembled at the beginning of `PleskApiClient.request`
(`if self.secret_key:` is Python truthiness: `None` and `""` both select
the login/password pair). -/
def PleskApiClient.headers (c : PleskApiClient) : List (String × Option String) :=
  [("Content-type", some "text/xml"), ("HTTP_PRETTY_PRINT", some "TRUE")] ++
    (match c.secret_key with
     | some k =>
       if k = "" then [("HTTP_AUTH_LOGIN", c.login), ("HTTP_AUTH_PASSWD", c.passwd)]
       else [("KEY", some k)]
     | none => [("HTTP_AUTH_LOGIN", c.login), ("HTTP_AUTH_PASSWD", c.passwd)])

/-- Raw response body of the server together with its parsed document
(the program always parses exactly the bytes it received, so the oracle
supplies both at once). -/
structure ServerResp where
  raw : String
  xml : XML

/-- Network oracle: the response the remote server gives to each request
body. -/
abbrev Server : Type := String → ServerResp

/-- `PleskApiClient.request`: with `ssl_unverified` set, the exception is
raised after the (lazy, not-yet-connected) `HTTPSConnection` object is
created but before `conn.request` transmits anything, so no request
reaches the host; otherwise the body is POSTed and the response body
returned. The second component lists the request bodies actually
transmitted. -/
def PleskApiClient.request (c : PleskApiClient) (server : Server) (req : String) :
    Except String ServerResp × List String :=
  if c.ssl_unverified = true then (.error certExceptionMsg, [])
  else (.ok (server req), [req])

/-- `PleskMailAliasManager._xml_packet`. -/
def xml_packet (xml : String) : String := "<packet>" ++ xml ++ "</packet>"

/-- Body of the `site/get` request built in `_get_site_id` (exact
whitespace of the source f-string). -/
def site_get_body (site : String) : String :=
  "<site>\n    <get>\n    <filter>\n        <name>" ++ site ++
    "</name>\n    </filter>\n    <dataset>\n        <gen_info/>\n    </dataset>\n    </get>\n</site>"

/-- `PleskMailAliasManager._xml_mail_packet`. -/
def xml_mail_packet (xml : String) : String := xml_packet ("<mail>" ++ xml ++ "</mail>")

/-- `PleskMailAliasManager._xml_mail_filter_site_account_alias`. -/
def mail_filter_site_account_alias (site_id : Int) (account aliasStr : String) : String :=
  "<filter>\n    <site-id>" ++ toString site_id ++
    "</site-id>\n    <mailname>\n        <name>" ++ account ++
    "</name>\n        <alias>" ++ aliasStr ++ "</alias>\n    </mailname>\n</filter>"

/-- Body of the `mail/update/add` request built in `add_mail_alias`. -/
def mail_add_body (site_id : Int) (account aliasStr : String) : String :=
  "<update>\n    <add>\n        " ++ mail_filter_site_account_alias site_id account aliasStr ++
    "\n    </add>\n</update>"

/-- Body of the `mail/update/remove` request built in `del_mail_alias`. -/
def mail_remove_body (site_id : Int) (account aliasStr : String) : String :=
  "<update>\n    <remove>\n        " ++ mail_filter_site_account_alias site_id account aliasStr ++
    "\n    </remove>\n</update>"

/-- Body of the `mail/get_info` request built in `query_aliases`. -/
def mail_get_info_body (site_id : Int) (account : String) : String :=
  "<get_info>\n    <filter>\n        <site-id>" ++ toString site_id ++
    "</site-id>\n        <name>" ++ account ++ "</name>\n    </filter>\n    <aliases/>\n</get_info>"

/-- Message of the "response was not okay" exceptions: the raw response
body is interpolated into the message. -/
def notOkayMsg (resp : String) : String :=
  "XML RPC response was not okay: '" ++ resp ++ "'"

/-- Message of the site-name-mismatch exception; note that it does not
interpolate the response. -/
def nameMismatchMsg : String :=
  "XML RPC response does not match specified site name"

/-- Body of the `for result in ...` loop of
`PleskMailAliasManager._get_site_id`: status check, name-echo check, then
`int(...)` conversion of the unique `id` text. -/
def validateResult (site resp : String) (result : XML) : Except String Int :=
  if verify_status_ok [] result = false then .error (notOkayMsg resp)
  else
    match xml_find_one result ["data", "gen_info", "name"] with
    | .error e => .error e
    | .ok nameEl =>
      if some site ≠ nameEl.text then .error nameMismatchMsg
      else
        match xml_find_one result ["id"] with
        | .error e => .error e
        | .ok idEl => py_int_text idEl.text

/-- The `site_id` accumulation loop of `_get_site_id`: each successful
iteration overwrites the accumulator, any exception propagates. -/
def processResults (site resp : String) : List XML → Option Int → Except String (Option Int)
  | [], site_id => .ok site_id
  | result :: rest, _ =>
    match validateResult site resp result with
    | .error e => .error e
    | .ok n => processResults site resp rest (some n)

/-- `PleskMailAliasManager._get_site_id` after the response has been
received: run the result loop over `./site/get/result` and raise when no
id was retained. -/
def get_site_id_pure (site resp : String) (response : XML) : Except String Int :=
  match processResults site resp (findall response ["site", "get", "result"]) none with
  | .error e => .error e
  | .ok none => .error (notOkayMsg resp)
  | .ok (some n) => .ok n

/-- `PleskMailAliasManager._get_site_id`, including the request
round-trip. -/
def get_site_id (client : PleskApiClient) (server : Server) (site : String) :
    Except String Int × List String :=
  match client.request server (xml_packet (site_get_body site)) with
  | (.error e, t) => (.error e, t)
  | (.ok r, t) => (get_site_id_pure site r.raw r.xml, t)

/-- State of a `PleskMailAliasManager` object. -/
structure PleskMailAliasManager where
  client : PleskApiClient
  site : String
  site_id : Int
  deriving DecidableEq

/-- `PleskMailAliasManager.__init__`: stores the client and site name and
eagerly resolves the site id (one round-trip). -/
def PleskMailAliasManager.construct (client : PleskApiClient) (server : Server) (site : String) :
    Except String PleskMailAliasManager × List String :=
  match get_site_id client server site with
  | (.error e, t) => (.error e, t)
  | (.ok n, t) => (.ok ⟨client, site, n⟩, t)

/-- `PleskMailAliasManager.add_mail_alias`. -/
def PleskMailAliasManager.add_mail_alias (m : PleskMailAliasManager) (server : Server)
    (account aliasStr : String) : Except String Unit × List String :=
  match m.client.request server (xml_mail_packet (mail_add_body m.site_id account aliasStr)) with
  | (.error e, t) => (.error e, t)
  | (.ok r, t) =>
    if verify_status_ok ["mail", "update", "add", "result"] r.xml then (.ok (), t)
    else (.error (notOkayMsg r.raw), t)

/-- `PleskMailAliasManager.del_mail_alias`. -/
def PleskMailAliasManager.del_mail_alias (m : PleskMailAliasManager) (server : Server)
    (account aliasStr : String) : Except String Unit × List String :=
  match m.client.request server (xml_mail_packet (mail_remove_body m.site_id account aliasStr)) with
  | (.error e, t) => (.error e, t)
  | (.ok r, t) =>
    if verify_status_ok ["mail", "update", "remove", "result"] r.xml then (.ok (), t)
    else (.error (notOkayMsg r.raw), t)

/-- The alias-collection loop of `query_aliases`: every
`./mail/get_info/result/mailname` node's `./alias` children, texts
appended in document order. -/
def extract_aliases (response : XML) : List (Option String) :=
  (findall response ["mail", "get_info", "result", "mailname"]).flatMap
    (fun result => (findall result ["alias"]).map XML.text)

/-- `PleskMailAliasManager.query_aliases`. -/
def PleskMailAliasManager.query_aliases (m : PleskMailAliasManager) (server : Server)
    (account : String) : Except String (List (Option String)) × List String :=
  match m.client.request server (xml_mail_packet (mail_get_info_body m.site_id account)) with
  | (.error e, t) => (.error e, t)
  | (.ok r, t) =>
    if verify_status_ok ["mail", "get_info", "result"] r.xml then (.ok (extract_aliases r.xml), t)
    else (.error (notOkayMsg r.raw), t)

/-- Parsed command-line arguments (`argparse` namespace): `-U` defaults
to `"admin"`, `-H`/`-P`/`-M` are required strings, `-L` is a flag
defaulting to `False`, `-A`/`-R` default to `None`. -/
structure Args where
  api_user : String
  api_host : String
  passwd_env_var : String
  account : String
  list : Bool
  add : Option String
  remove : Option String
  deriving DecidableEq

/-- How a run of `main` terminates abnormally: `parser.error` (usage
message on stderr, exit status 2), an uncaught `AttributeError`
(traceback, exit status 1), or an uncaught `Exception` (traceback, exit
status 1). -/
inductive MainError where
  | usageError (msg : String)
  | attributeError (msg : String)
  | exception (msg : String)
  deriving DecidableEq

deriving instance DecidableEq for Except

/-- Observable outcome of a run of `main`: the stdout lines printed, the
XML request bodies transmitted to the server in order, and the result. -/
structure RunOut where
  stdout : List String
  requests : List String
  result : Except MainError Unit
  deriving DecidableEq

/-- Message passed to `p.error` when none of `-L`, `-A`, `-R` is given
(typo as in the source). -/
def usageEitherMsg : String := "Either -L, -A or -R are requried"

/-- Message of the `AttributeError` raised at line 236 of the source:
`p` has been rebound to the result of `split("@")`, so `p.error(...)`
is an attribute access on a `list`. -/
def attrErrorMsg : String := "'list' object has no attribute 'error'"

/-- Message of the exception raised for a missing or empty password
environment variable (the closing quote is missing in the source
f-string). -/
def envVarMsg (v : String) : String :=
  "Failed to read value of environment variable '" ++ v

/-- One printed alias line, `print(f"  - {alias}")`; `None` prints as
`"None"`. -/
def format_alias (a : Option String) : String :=
  match a with
  | some s => "  - " ++ s
  | none => "  - None"

/-- The `if args.list:` block of `main`: query the aliases and print the
header plus one line per alias. -/
def step_list (mgr : PleskMailAliasManager) (server : Server) (account : String) (args : Args) :
    Except String (List String) × List String :=
  if args.list then
    match mgr.query_aliases server account with
    | (.error e, t) => (.error e, t)
    | (.ok aliases, t) => (.ok ("aliases:" :: aliases.map format_alias), t)
  else (.ok [], [])

/-- The `if args.add:` block of `main` (Python truthiness: `None` and
`""` both skip the block). -/
def step_add (mgr : PleskMailAliasManager) (server : Server) (account : String) (args : Args) :
    Except String Unit × List String :=
  match args.add with
  | some a => if a = "" then (.ok (), []) else mgr.add_mail_alias server account a
  | none => (.ok (), [])

/-- The `if args.remove:` block of `main` (Python truthiness: `None` and
`""` both skip the block). -/
def step_remove (mgr : PleskMailAliasManager) (server : Server) (account : String) (args : Args) :
    Except String Unit × List String :=
  match args.remove with
  | some a => if a = "" then (.ok (), []) else mgr.del_mail_alias server account a
  | none => (.ok (), [])

/-- The three operation blocks of `main`, in source order (list, add,
remove); an exception in an earlier block propagates and the later
blocks never run. Output printed before the failure has already gone to
stdout. -/
def run_ops (mgr : PleskMailAliasManager) (server : Server) (account : String) (args : Args) :
    RunOut :=
  match step_list mgr server account args with
  | (.error e, t1) => ⟨[], t1, .error (.exception e)⟩
  | (.ok out, t1) =>
    match step_add mgr server account args with
    | (.error e, t2) => ⟨out, t1 ++ t2, .error (.exception e)⟩
    | (.ok _, t2) =>
      match step_remove mgr server account args with
      | (.error e, t3) => ⟨out, t1 ++ t2 ++ t3, .error (.exception e)⟩
      | (.ok _, t3) => ⟨out, t1 ++ t2 ++ t3, .ok ()⟩

/-- Client construction in `main`: `PleskApiClient(args.api_host)` (port
defaults to 8443, `ssl_unverified` to `False`) followed by
`set_credentials(args.api_user, passwd)`. -/
def main_client (args : Args) (passwd : String) : Except String PleskApiClient :=
  match PleskApiClient.construct args.api_host 8443 false with
  | .error e => .error e
  | .ok c => .ok (c.set_credentials args.api_user passwd)

/-- `main` after argument parsing: the flag check, the `-M` split (note
the rebinding of `p`), the password lookup (`if not passwd` catches both
an unset variable and an empty value), client and manager construction,
then the three operation blocks. -/
def run_main (args : Args) (env : String → Option String) (server : Server) : RunOut :=
  if args.list = false ∧ args.add = none ∧ args.remove = none then
    ⟨[], [], .error (.usageError usageEitherMsg)⟩
  else
    match pysplit args.account '@' with
    | [account, site] =>
      match env args.passwd_env_var with
      | none => ⟨[], [], .error (.exception (envVarMsg args.passwd_env_var))⟩
      | some passwd =>
        if passwd = "" then ⟨[], [], .error (.exception (envVarMsg args.passwd_env_var))⟩
        else
          match main_client args passwd with
          | .error e => ⟨[], [], .error (.exception e)⟩
          | .ok client =>
            match PleskMailAliasManager.construct client server site with
            | (.error e, t0) => ⟨[], t0, .error (.exception e)⟩
            | (.ok mgr, t0) =>
              let r := run_ops mgr server account args
              ⟨r.stdout, t0 ++ r.requests, r.result⟩
    | _ => ⟨[], [], .error (.attributeError attrErrorMsg)⟩

/-- Process exit status: 0 on success, 2 for `parser.error`, 1 for an
uncaught exception. -/
def exit_code (r : RunOut) : Nat :=
  match r.result with
  | .ok _ => 0
  | .error (.usageError _) => 2
  | .error _ => 1

/-! ### Concrete fixtures (responses of mock servers, used to instantiate
the theorems below at concrete inputs) -/

/-- Element with text and no children. -/
def xmlLeaf (tag txt : String) : XML := .elem tag (some txt) []

/-- Element with children and no text. -/
def xmlNode (tag : String) (cs : List XML) : XML := .elem tag none cs

/-- Response with an empty `<packet/>` document (fails every status
check). -/
def emptyResp : ServerResp := ⟨"emptyraw", xmlNode "packet" []⟩

/-- One well-formed `site/get/result` node with status `ok`. -/
def site_result (name idText : String) : XML :=
  xmlNode "result" [xmlLeaf "status" "ok",
    xmlNode "data" [xmlNode "gen_info" [xmlLeaf "name" name]], xmlLeaf "id" idText]

/-- `site/get` response resolving site `b` to id 42. -/
def demo_site_xml : XML :=
  xmlNode "packet" [xmlNode "site" [xmlNode "get" [site_result "b" "42"]]]

/-- `mail/get_info` response with aliases `jsmith` and `j.doe`. -/
def demo_list_xml : XML :=
  xmlNode "packet" [xmlNode "mail" [xmlNode "get_info" [xmlNode "result"
    [xmlLeaf "status" "ok",
     xmlNode "mailname" [xmlLeaf "alias" "jsmith", xmlLeaf "alias" "j.doe"]]]]]

/-- `mail/get_info` response with status `ok` and no aliases. -/
def demo_empty_list_xml : XML :=
  xmlNode "packet" [xmlNode "mail" [xmlNode "get_info" [xmlNode "result"
    [xmlLeaf "status" "ok"]]]]

/-- `mail/update/add` response with status `ok`. -/
def demo_ok_add_xml : XML :=
  xmlNode "packet" [xmlNode "mail" [xmlNode "update" [xmlNode "add"
    [xmlNode "result" [xmlLeaf "status" "ok"]]]]]

/-- `mail/update/remove` response with status `ok`. -/
def demo_ok_remove_xml : XML :=
  xmlNode "packet" [xmlNode "mail" [xmlNode "update" [xmlNode "remove"
    [xmlNode "result" [xmlLeaf "status" "ok"]]]]]

/-- Mock server: resolves site `b` to id 42 and answers the list, add
and remove requests for account `joe` (aliases `v` and `w`) with `ok`
responses; everything else gets an empty packet. -/
def demo_server : Server := fun req =>
  if req = xml_packet (site_get_body "b") then ⟨"siteraw", demo_site_xml⟩
  else if req = xml_mail_packet (mail_get_info_body 42 "joe") then ⟨"listraw", demo_list_xml⟩
  else if req = xml_mail_packet (mail_add_body 42 "joe" "v") then ⟨"addraw", demo_ok_add_xml⟩
  else if req = xml_mail_packet (mail_remove_body 42 "joe" "w") then ⟨"removeraw", demo_ok_remove_xml⟩
  else emptyResp

/-- Mock server: site resolution works, the list request fails its
status check, add and remove requests would succeed. -/
def demo_fail_list_server : Server := fun req =>
  if req = xml_packet (site_get_body "b") then ⟨"siteraw", demo_site_xml⟩
  else if req = xml_mail_packet (mail_add_body 42 "joe" "v") then ⟨"addraw", demo_ok_add_xml⟩
  else if req = xml_mail_packet (mail_remove_body 42 "joe" "w") then ⟨"removeraw", demo_ok_remove_xml⟩
  else emptyResp

/-- Mock server: site resolution works and the list request returns a
status-`ok` response with no aliases at all. -/
def demo_empty_list_server : Server := fun req =>
  if req = xml_packet (site_get_body "b") then ⟨"siteraw", demo_site_xml⟩
  else if req = xml_mail_packet (mail_get_info_body 42 "joe") then
    ⟨"emptylistraw", demo_empty_list_xml⟩
  else emptyResp

/-- Environment with exactly `PW = "s3"` set. -/
def demo_env : String → Option String := fun v => if v = "PW" then some "s3" else none

/-- `site/get` response whose echoed `gen_info/name` is `other`, not the
requested site. -/
def c4_mismatch_xml : XML :=
  xmlNode "packet" [xmlNode "site" [xmlNode "get" [site_result "other" "7"]]]

/-- `site/get` response with two validating result nodes, ids 1 and 2. -/
def c9_two_results_xml : XML :=
  xmlNode "packet" [xmlNode "site" [xmlNode "get" [site_result "b" "1", site_result "b" "2"]]]

/-- Server that always answers with the two-result `site/get` response. -/
def c9_server : Server := fun _ => ⟨"raw9", c9_two_results_xml⟩

/-! ### Helper lemmas -/

/-- `findall` along a concatenated path chains through the intermediate
matches. -/
theorem findall_append (ps : List String) (x : XML) (qs : List String) :
    findall x (ps ++ qs) = (findall x ps).flatMap (fun y => findall y qs) := by
  induction ps generalizing x with
  | nil => simp [findall]
  | cons t ts ih =>
    simp only [List.cons_append, findall, List.flatMap_assoc]
    exact List.flatMap_congr (fun c _ => ih c)

/-- The only exception `_xml_find_one` raises is its fixed message. -/
theorem xml_find_one_error (el : XML) (path : List String) (e : String)
    (h : xml_find_one el path = .error e) : e = findOneMsg := by
  unfold xml_find_one at h
  split at h
  · exact Except.noConfusion h
  · injection h with h
    exact h.symm

/-- The only exceptions the `int()` conversion raises are the
`TypeError` for a missing text and the `ValueError` for a malformed
literal. -/
theorem py_int_text_error (t : Option String) (e : String)
    (h : py_int_text t = .error e) : e = intNoneTypeMsg ∨ ∃ s, e = intValueErrMsg s := by
  unfold py_int_text at h
  rcases t with _ | s
  · simp only at h
    injection h with h
    exact Or.inl h.symm
  · rcases hp : py_int s with _ | n <;> simp only [hp] at h
    · injection h with h
      exact Or.inr ⟨s, h.symm⟩
    · exact Except.noConfusion h

/-- Every exception of the result-validation loop body carries one of
the five messages raised there. -/
theorem validateResult_error_msgs (site resp : String) (r : XML) (e : String)
    (h : validateResult site resp r = .error e) :
    e = notOkayMsg resp ∨ e = nameMismatchMsg ∨ e = findOneMsg ∨
      e = intNoneTypeMsg ∨ ∃ s, e = intValueErrMsg s := by
  unfold validateResult at h
  split at h
  · injection h with h
    exact Or.inl h.symm
  · rcases h1 : xml_find_one r ["data", "gen_info", "name"] with e1 | nameEl <;>
      simp only [h1] at h
    · injection h with h
      exact Or.inr (Or.inr (Or.inl ((xml_find_one_error _ _ _ h1).symm.trans h).symm))
    · split at h
      · injection h with h
        exact Or.inr (Or.inl h.symm)
      · rcases h2 : xml_find_one r ["id"] with e2 | idEl <;> simp only [h2] at h
        · injection h with h
          exact Or.inr (Or.inr (Or.inl ((xml_find_one_error _ _ _ h2).symm.trans h).symm))
        · rcases py_int_text_error _ _ h with h3 | ⟨s, h3⟩
          · exact Or.inr (Or.inr (Or.inr (Or.inl h3)))
          · exact Or.inr (Or.inr (Or.inr (Or.inr ⟨s, h3⟩)))

/-- An exception of the accumulation loop comes from the validation of
one of the result nodes. -/
theorem processResults_error (site resp : String) (rs : List XML) (acc : Option Int) (e : String)
    (h : processResults site resp rs acc = .error e) :
    ∃ r, r ∈ rs ∧ validateResult site resp r = .error e := by
  induction rs generalizing acc with
  | nil => exact Except.noConfusion h
  | cons a as ih =>
    unfold processResults at h
    rcases hv : validateResult site resp a with e1 | n <;> simp only [hv] at h
    · injection h with h
      exact ⟨a, by simp, by rw [hv, h]⟩
    · obtain ⟨r, hr, he⟩ := ih (some n) h
      exact ⟨r, List.mem_cons_of_mem a hr, he⟩

/-- When the accumulation loop over `rs ++ [r]` succeeds, the value it
returns is the one validated from the final result node `r`. -/
theorem processResults_last (site resp : String) (rs : List XML) (r : XML) (acc v : Option Int)
    (h : processResults site resp (rs ++ [r]) acc = .ok v) :
    ∃ n, validateResult site resp r = .ok n ∧ v = some n := by
  induction rs generalizing acc with
  | nil =>
    rw [List.nil_append] at h
    unfold processResults at h
    rcases hv : validateResult site resp r with e1 | n <;> simp only [hv] at h
    · exact Except.noConfusion h
    · unfold processResults at h
      injection h with h
      exact ⟨n, rfl, h.symm⟩
  | cons a as ih =>
    rw [List.cons_append] at h
    unfold processResults at h
    rcases hv : validateResult site resp a with e1 | n <;> simp only [hv] at h
    · exact Except.noConfusion h
    · exact ih (some n) h

/-- Every exception of `_get_site_id`'s response processing carries one
of the five messages. -/
theorem get_site_id_pure_error_msgs (site resp : String) (response : XML) (e : String)
    (h : get_site_id_pure site resp response = .error e) :
    e = notOkayMsg resp ∨ e = nameMismatchMsg ∨ e = findOneMsg ∨
      e = intNoneTypeMsg ∨ ∃ s, e = intValueErrMsg s := by
  unfold get_site_id_pure at h
  rcases hp : processResults site resp (findall response ["site", "get", "result"]) none
    with e1 | v <;> simp only [hp] at h
  · injection h with h
    obtain ⟨r, _, hv⟩ := processResults_error _ _ _ _ _ hp
    exact h ▸ validateResult_error_msgs _ _ _ _ hv
  · rcases v with _ | n <;> simp only at h
    · injection h with h
      exact Or.inl h.symm
    · exact Except.noConfusion h

/-! ### Claim theorems -/

/-- C1 counterexample: constructing the Transport Client with
`ssl_unverified = true` does not raise anything — `__init__` consists of
plain attribute assignments and returns the client object, so no
configuration error is raised at construction time. -/
theorem c1_construct_no_error :
    PleskApiClient.construct "plesk.example.com" 8443 true =
      .ok ⟨"plesk.example.com", 8443, none, true, none, none⟩ := rfl

/-- C1 (amended): for every client carrying `ssl_unverified = true`,
every call to `request` raises the configuration exception before the
request is transmitted, so no request body ever reaches the host (the
transmitted-requests component is empty). -/
theorem c1_request_raises (c : PleskApiClient) (server : Server) (req : String)
    (h : c.ssl_unverified = true) :
    c.request server req = (.error certExceptionMsg, []) := by
  simp [PleskApiClient.request, h]

/-- Witness for `c1_request_raises` at a concrete insecure client. -/
theorem c1_request_raises_witness :
    (⟨"plesk.example.com", 8443, none, true, none, none⟩ : PleskApiClient).ssl_unverified
        = true ∧
    (⟨"plesk.example.com", 8443, none, true, none, none⟩ : PleskApiClient).request
        (fun _ => emptyResp) (xml_packet "") = (.error certExceptionMsg, []) :=
  ⟨rfl, c1_request_raises _ _ _ rfl⟩

/-- C2: the shared status-check primitive returns `true` exactly when
there is a unique `status` element at `path ++ "/status"` whose text is
exactly `"ok"`; with zero or several `status` elements, or any other
text, it returns `false`. It is a total function (the source catches the
lookup exception), so it never raises. -/
theorem c2_verify_status_ok_iff (path : List String) (response : XML) :
    verify_status_ok path response = true ↔
      ∃ s, findall response (path ++ ["status"]) = [s] ∧ s.text = some "ok" := by
  unfold verify_status_ok xml_find_one
  rcases h : findall response (path ++ ["status"]) with _ | ⟨a, _ | ⟨b, l⟩⟩ <;>
    simp [h]

/-- C3 (evidence of the code bug): on `-M joe.example.com` (no `@`) the
program does not reach `parser.error`: line 234 has rebound `p` to the
result of `split("@")`, so `p.error(...)` raises `AttributeError`.  The
run terminates with the attribute error (exit status 1, not the usage
message), and no request is transmitted. -/
theorem c3_attribute_error :
    run_main ⟨"admin", "plesk.example.com", "PW", "joe.example.com", true, none, none⟩
        demo_env (fun _ => emptyResp) =
      ⟨[], [], .error (.attributeError attrErrorMsg)⟩ ∧
    exit_code (run_main ⟨"admin", "plesk.example.com", "PW", "joe.example.com", true, none, none⟩
        demo_env (fun _ => emptyResp)) = 1 := by
  constructor <;> decide

/-- The alias-collection double loop equals one `findall` along the full
five-step path, texts taken in document order. -/
theorem extract_aliases_eq (response : XML) :
    extract_aliases response =
      (findall response ["mail", "get_info", "result", "mailname", "alias"]).map XML.text := by
  unfold extract_aliases
  have hsplit : (["mail", "get_info", "result", "mailname", "alias"] : List String)
      = ["mail", "get_info", "result", "mailname"] ++ ["alias"] := rfl
  rw [hsplit, findall_append, List.map_flatMap]

/-- When `_get_site_id`'s response processing succeeds and the result
list is nonempty, the returned id is the one validated from the last
result node. -/
theorem get_site_id_pure_last (site resp : String) (response : XML) (rs : List XML) (r : XML)
    (v : Int) (hfind : findall response ["site", "get", "result"] = rs ++ [r])
    (h : get_site_id_pure site resp response = .ok v) :
    validateResult site resp r = .ok v := by
  unfold get_site_id_pure at h
  rw [hfind] at h
  rcases hp : processResults site resp (rs ++ [r]) none with e | w <;> simp only [hp] at h
  · exact Except.noConfusion h
  · obtain ⟨n, hv, hw⟩ := processResults_last _ _ _ _ _ _ hp
    subst hw
    simp only at h
    injection h with h
    rw [hv, h]

/-- After passing the flag check, the `-M` split, and the password
lookup, `main` constructs the client with `ssl_unverified = False`,
resolves the site id with one `site/get` round-trip, and hands over to
the three operation blocks. -/
theorem run_main_reaches_ops (args : Args) (env : String → Option String) (server : Server)
    (account site passwd : String) (sid : Int)
    (hflag : ¬(args.list = false ∧ args.add = none ∧ args.remove = none))
    (hsplit : pysplit args.account '@' = [account, site])
    (henv : env args.passwd_env_var = some passwd) (hpw : ¬passwd = "")
    (hsid : get_site_id_pure site (server (xml_packet (site_get_body site))).raw
        (server (xml_packet (site_get_body site))).xml = .ok sid) :
    run_main args env server =
      ⟨(run_ops ⟨⟨args.api_host, 8443, none, false, some args.api_user, some passwd⟩, site, sid⟩
          server account args).stdout,
       xml_packet (site_get_body site) ::
         (run_ops ⟨⟨args.api_host, 8443, none, false, some args.api_user, some passwd⟩, site, sid⟩
           server account args).requests,
       (run_ops ⟨⟨args.api_host, 8443, none, false, some args.api_user, some passwd⟩, site, sid⟩
         server account args).result⟩ := by
  unfold run_main main_client PleskApiClient.construct PleskApiClient.set_credentials
  rw [if_neg hflag]
  simp only [hsplit, henv, if_neg hpw]
  unfold PleskMailAliasManager.construct get_site_id PleskApiClient.request
  simp only [Bool.false_eq_true, if_false, hsid]
  rfl

/-- C4 counterexample: on a response whose single `site/get/result` node
passes the status check but echoes `gen_info/name = "other"` for the
requested site `b`, site resolution raises the name-mismatch exception,
and its message does not contain the raw response body (here
`"RAWRESPONSE"`). -/
theorem c4_mismatch_error_lacks_response :
    get_site_id_pure "b" "RAWRESPONSE" c4_mismatch_xml = .error nameMismatchMsg ∧
    ¬ ("RAWRESPONSE".data <:+: nameMismatchMsg.data) := by
  constructor
  · decide
  · decide

/-- C4 (amended): every site-resolution failure raises the same single
class of error (a generic exception, modelled as `Except.error` with a
message); the zero-result, status-check and no-id failures interpolate
the raw response body into the message, but the name-mismatch,
duplicate/missing-singular-field and malformed-id failures carry fixed
messages that do not include the response. -/
theorem c4_error_classes (site resp : String) (response : XML) (e : String)
    (h : get_site_id_pure site resp response = .error e) :
    (e = notOkayMsg resp ∨ e = nameMismatchMsg ∨ e = findOneMsg ∨
      e = intNoneTypeMsg ∨ ∃ s, e = intValueErrMsg s) ∧
    resp.data <:+: (notOkayMsg resp).data := by
  refine ⟨get_site_id_pure_error_msgs _ _ _ _ h, ?_⟩
  exact ⟨"XML RPC response was not okay: '".data, "'".data, by
    simp [notOkayMsg, String.data_append]⟩

/-- Witness for `c4_error_classes` at a response with zero result
nodes. -/
theorem c4_error_classes_witness :
    (notOkayMsg "X" = notOkayMsg "X" ∨ notOkayMsg "X" = nameMismatchMsg ∨
      notOkayMsg "X" = findOneMsg ∨ notOkayMsg "X" = intNoneTypeMsg ∨
      ∃ s, notOkayMsg "X" = intValueErrMsg s) ∧
    "X".data <:+: (notOkayMsg "X").data :=
  c4_error_classes "b" "X" (xmlNode "packet" []) (notOkayMsg "X") (by decide)

/-- C5: whenever the `mail/get_info/result` status check passes,
`query_aliases` returns exactly the texts of all
`mail/get_info/result/mailname/alias` nodes, in document order and
without deduplication (an empty match list yields `ok []`, never an
error), having transmitted exactly the one `get_info` request. -/
theorem c5_query_aliases_exact (m : PleskMailAliasManager) (server : Server) (account : String)
    (hns : m.client.ssl_unverified = false)
    (hok : verify_status_ok ["mail", "get_info", "result"]
        (server (xml_mail_packet (mail_get_info_body m.site_id account))).xml = true) :
    m.query_aliases server account =
      (.ok ((findall (server (xml_mail_packet (mail_get_info_body m.site_id account))).xml
          ["mail", "get_info", "result", "mailname", "alias"]).map XML.text),
       [xml_mail_packet (mail_get_info_body m.site_id account)]) := by
  unfold PleskMailAliasManager.query_aliases PleskApiClient.request
  rw [hns]
  simp only [Bool.false_eq_true, if_false, hok, if_true, extract_aliases_eq]

/-- Witness for `c5_query_aliases_exact` at a server whose status-`ok`
response contains no aliases: the returned sequence is empty, not an
error. -/
theorem c5_query_aliases_exact_witness :
    (⟨⟨"h", 8443, none, false, some "admin", some "s3"⟩, "b", 42⟩ : PleskMailAliasManager).client.ssl_unverified = false ∧
    (⟨⟨"h", 8443, none, false, some "admin", some "s3"⟩, "b", 42⟩ : PleskMailAliasManager).query_aliases
        demo_empty_list_server "joe" =
      (.ok [], [xml_mail_packet (mail_get_info_body 42 "joe")]) :=
  ⟨rfl, c5_query_aliases_exact _ demo_empty_list_server "joe" rfl (by decide)⟩

/-- C9: when manager construction succeeds and the response contained
the result nodes `rs ++ [r]`, the site id stored in the manager is the
one validated from the *last* result node `r` — each validated id
silently overwrites the previously extracted one. -/
theorem c9_last_result_wins (client : PleskApiClient) (server : Server) (site : String)
    (mgr : PleskMailAliasManager) (t : List String) (rs : List XML) (r : XML)
    (hns : client.ssl_unverified = false)
    (hcon : PleskMailAliasManager.construct client server site = (.ok mgr, t))
    (hfind : findall (server (xml_packet (site_get_body site))).xml ["site", "get", "result"]
      = rs ++ [r]) :
    validateResult site (server (xml_packet (site_get_body site))).raw r = .ok mgr.site_id := by
  unfold PleskMailAliasManager.construct get_site_id PleskApiClient.request at hcon
  rw [hns] at hcon
  simp only [Bool.false_eq_true, if_false] at hcon
  rcases hg : get_site_id_pure site (server (xml_packet (site_get_body site))).raw
      (server (xml_packet (site_get_body site))).xml with e | v <;> simp only [hg] at hcon
  · exact Except.noConfusion (congrArg Prod.fst hcon)
  · have h2 : (Except.ok ⟨client, site, v⟩ : Except String PleskMailAliasManager) = .ok mgr :=
      congrArg Prod.fst hcon
    injection h2 with h2
    rw [← h2]
    exact get_site_id_pure_last _ _ _ _ _ _ hfind hg

/-- Witness for `c9_last_result_wins`: two validating result nodes with
ids 1 and 2; the manager ends up with id 2, validated from the second
node. -/
theorem c9_last_result_wins_witness :
    validateResult "b" "raw9" (site_result "b" "2") = .ok
      (⟨⟨"h", 8443, none, false, none, none⟩, "b", 2⟩ : PleskMailAliasManager).site_id :=
  c9_last_result_wins ⟨"h", 8443, none, false, none, none⟩ c9_server "b"
    ⟨⟨"h", 8443, none, false, none, none⟩, "b", 2⟩ [xml_packet (site_get_body "b")]
    [site_result "b" "1"] (site_result "b" "2") rfl (by decide) rfl

/-- C6: when the environment variable named by `-P` is unset or holds
the empty string, the run fails with the exception naming that variable
(exit status 1, non-zero) and the transmitted-requests list is empty —
no network call happens before the check. -/
theorem c6_missing_env_var (args : Args) (env : String → Option String) (server : Server)
    (account site : String)
    (hflag : ¬(args.list = false ∧ args.add = none ∧ args.remove = none))
    (hsplit : pysplit args.account '@' = [account, site])
    (henv : env args.passwd_env_var = none ∨ env args.passwd_env_var = some "") :
    run_main args env server = ⟨[], [], .error (.exception (envVarMsg args.passwd_env_var))⟩ ∧
    exit_code (run_main args env server) = 1 ∧
    args.passwd_env_var.data <:+: (envVarMsg args.passwd_env_var).data := by
  have hmain : run_main args env server
      = ⟨[], [], .error (.exception (envVarMsg args.passwd_env_var))⟩ := by
    unfold run_main
    rw [if_neg hflag]
    rcases henv with h | h <;> simp [hsplit, h]
  refine ⟨hmain, by rw [hmain]; rfl, ?_⟩
  refine ⟨"Failed to read value of environment variable '".data, [], ?_⟩
  simp [envVarMsg, String.data_append]

/-- Witness for `c6_missing_env_var`: variable `MISSING` is unset in the
demo environment. -/
theorem c6_missing_env_var_witness :
    run_main ⟨"admin", "h", "MISSING", "joe@b", true, none, none⟩ demo_env (fun _ => emptyResp)
      = ⟨[], [], .error (.exception (envVarMsg "MISSING"))⟩ ∧
    exit_code (run_main ⟨"admin", "h", "MISSING", "joe@b", true, none, none⟩ demo_env
      (fun _ => emptyResp)) = 1 ∧
    "MISSING".data <:+: (envVarMsg "MISSING").data :=
  c6_missing_env_var _ demo_env _ "joe" "b" (by decide) (by decide) (Or.inl (by decide))

/-- C8: on `-L` (alone), a successful listing prints the literal header
`aliases:` followed by one `  - <alias>` line per returned alias, in
order; an empty alias list prints just the header (the map over `[]` is
`[]`). -/
theorem c8_list_prints_header_and_lines (args : Args) (env : String → Option String)
    (server : Server) (account site passwd : String) (sid : Int) (as : List String)
    (hlist : args.list = true) (hadd : args.add = none) (hrem : args.remove = none)
    (hsplit : pysplit args.account '@' = [account, site])
    (henv : env args.passwd_env_var = some passwd) (hpw : ¬passwd = "")
    (hsid : get_site_id_pure site (server (xml_packet (site_get_body site))).raw
        (server (xml_packet (site_get_body site))).xml = .ok sid)
    (hok : verify_status_ok ["mail", "get_info", "result"]
        (server (xml_mail_packet (mail_get_info_body sid account))).xml = true)
    (hex : extract_aliases (server (xml_mail_packet (mail_get_info_body sid account))).xml
        = as.map some) :
    run_main args env server =
      ⟨"aliases:" :: as.map (fun x => "  - " ++ x),
       [xml_packet (site_get_body site), xml_mail_packet (mail_get_info_body sid account)],
       .ok ()⟩ := by
  have hflag : ¬(args.list = false ∧ args.add = none ∧ args.remove = none) := by simp [hlist]
  rw [run_main_reaches_ops args env server account site passwd sid hflag hsplit henv hpw hsid]
  simp only [run_ops, step_list, step_add, step_remove, hlist, hadd, hrem, if_true,
    PleskMailAliasManager.query_aliases, PleskApiClient.request, Bool.false_eq_true, if_false,
    hok, hex]
  simp [format_alias, List.map_map, Function.comp_def]

/-- Witness for `c8_list_prints_header_and_lines`: the spec's example,
aliases `jsmith` and `j.doe`. -/
theorem c8_list_prints_header_and_lines_witness :
    run_main ⟨"admin", "h", "PW", "joe@b", true, none, none⟩ demo_env demo_server =
      ⟨["aliases:", "  - jsmith", "  - j.doe"],
       [xml_packet (site_get_body "b"), xml_mail_packet (mail_get_info_body 42 "joe")],
       .ok ()⟩ :=
  c8_list_prints_header_and_lines _ demo_env demo_server "joe" "b" "s3" 42 ["jsmith", "j.doe"]
    rfl rfl rfl (by decide) (by decide) (by decide) (by decide) (by decide) (by decide)

/-- C10: `-A ""` (empty alias string) passes the at-least-one-of-L/A/R
validation (the value is not `None`), the site-resolution round-trip is
still performed (the one `site/get` request), yet Python truthiness
skips the `if args.add:` block, so no add request is ever issued and the
run exits 0 with no output. -/
theorem c10_empty_add_is_noop (args : Args) (env : String → Option String) (server : Server)
    (account site passwd : String) (sid : Int)
    (hlist : args.list = false) (hadd : args.add = some "") (hrem : args.remove = none)
    (hsplit : pysplit args.account '@' = [account, site])
    (henv : env args.passwd_env_var = some passwd) (hpw : ¬passwd = "")
    (hsid : get_site_id_pure site (server (xml_packet (site_get_body site))).raw
        (server (xml_packet (site_get_body site))).xml = .ok sid) :
    run_main args env server = ⟨[], [xml_packet (site_get_body site)], .ok ()⟩ ∧
    exit_code (run_main args env server) = 0 := by
  have hflag : ¬(args.list = false ∧ args.add = none ∧ args.remove = none) := by simp [hadd]
  rw [run_main_reaches_ops args env server account site passwd sid hflag hsplit henv hpw hsid]
  constructor
  · simp [run_ops, step_list, step_add, step_remove, hlist, hadd, hrem]
  · simp [run_ops, step_list, step_add, step_remove, hlist, hadd, hrem, exit_code]

/-- Witness for `c10_empty_add_is_noop`. -/
theorem c10_empty_add_is_noop_witness :
    run_main ⟨"admin", "h", "PW", "joe@b", false, some "", none⟩ demo_env demo_server
      = ⟨[], [xml_packet (site_get_body "b")], .ok ()⟩ ∧
    exit_code (run_main ⟨"admin", "h", "PW", "joe@b", false, some "", none⟩ demo_env demo_server)
      = 0 :=
  c10_empty_add_is_noop _ demo_env demo_server "joe" "b" "s3" 42 rfl rfl rfl (by decide)
    (by decide) (by decide) (by decide)

/-- C7: with `-L -A -R` all requested, the operations run in the fixed
source order list, add, remove — the request trace is exactly
`[site/get, get_info, add, remove]` when all succeed — and a raised
error in an earlier operation aborts all later ones: a failing list
stops after the `get_info` request (no add or remove request is ever
transmitted), and a failing add stops after the add request (no remove
request). The run then terminates with that single error — there is no
partial-success reporting. -/
theorem c7_fixed_order_and_abort (args : Args) (env : String → Option String) (server : Server)
    (account site passwd a w : String) (sid : Int)
    (hlist : args.list = true) (hadd : args.add = some a) (ha : ¬a = "")
    (hrem : args.remove = some w) (hw : ¬w = "")
    (hsplit : pysplit args.account '@' = [account, site])
    (henv : env args.passwd_env_var = some passwd) (hpw : ¬passwd = "")
    (hsid : get_site_id_pure site (server (xml_packet (site_get_body site))).raw
        (server (xml_packet (site_get_body site))).xml = .ok sid) :
    (verify_status_ok ["mail", "get_info", "result"]
        (server (xml_mail_packet (mail_get_info_body sid account))).xml = true →
      verify_status_ok ["mail", "update", "add", "result"]
        (server (xml_mail_packet (mail_add_body sid account a))).xml = true →
      verify_status_ok ["mail", "update", "remove", "result"]
        (server (xml_mail_packet (mail_remove_body sid account w))).xml = true →
      run_main args env server =
        ⟨"aliases:" :: (extract_aliases
            (server (xml_mail_packet (mail_get_info_body sid account))).xml).map format_alias,
         [xml_packet (site_get_body site), xml_mail_packet (mail_get_info_body sid account),
          xml_mail_packet (mail_add_body sid account a),
          xml_mail_packet (mail_remove_body sid account w)],
         .ok ()⟩) ∧
    (verify_status_ok ["mail", "get_info", "result"]
        (server (xml_mail_packet (mail_get_info_body sid account))).xml = false →
      run_main args env server =
        ⟨[], [xml_packet (site_get_body site), xml_mail_packet (mail_get_info_body sid account)],
         .error (.exception (notOkayMsg
           (server (xml_mail_packet (mail_get_info_body sid account))).raw))⟩) ∧
    (verify_status_ok ["mail", "get_info", "result"]
        (server (xml_mail_packet (mail_get_info_body sid account))).xml = true →
      verify_status_ok ["mail", "update", "add", "result"]
        (server (xml_mail_packet (mail_add_body sid account a))).xml = false →
      run_main args env server =
        ⟨"aliases:" :: (extract_aliases
            (server (xml_mail_packet (mail_get_info_body sid account))).xml).map format_alias,
         [xml_packet (site_get_body site), xml_mail_packet (mail_get_info_body sid account),
          xml_mail_packet (mail_add_body sid account a)],
         .error (.exception (notOkayMsg
           (server (xml_mail_packet (mail_add_body sid account a))).raw))⟩) := by
  have hflag : ¬(args.list = false ∧ args.add = none ∧ args.remove = none) := by simp [hlist]
  have h := run_main_reaches_ops args env server account site passwd sid hflag hsplit henv hpw hsid
  refine ⟨fun h1 h2 h3 => ?_, fun h1 => ?_, fun h1 h2 => ?_⟩ <;> rw [h]
  · simp [run_ops, step_list, step_add, step_remove, hlist, hadd, hrem, ha, hw,
      PleskMailAliasManager.query_aliases, PleskMailAliasManager.add_mail_alias,
      PleskMailAliasManager.del_mail_alias, PleskApiClient.request, h1, h2, h3]
  · simp [run_ops, step_list, step_add, step_remove, hlist, hadd, hrem, ha, hw,
      PleskMailAliasManager.query_aliases, PleskApiClient.request, h1]
  · simp [run_ops, step_list, step_add, step_remove, hlist, hadd, hrem, ha, hw,
      PleskMailAliasManager.query_aliases, PleskMailAliasManager.add_mail_alias,
      PleskApiClient.request, h1, h2]

/-- Witness for `c7_fixed_order_and_abort` with the all-succeed demo
server (the failure branches hold vacuously there). -/
theorem c7_fixed_order_and_abort_witness :
    (verify_status_ok ["mail", "get_info", "result"]
        (demo_server (xml_mail_packet (mail_get_info_body 42 "joe"))).xml = true →
      verify_status_ok ["mail", "update", "add", "result"]
        (demo_server (xml_mail_packet (mail_add_body 42 "joe" "v"))).xml = true →
      verify_status_ok ["mail", "update", "remove", "result"]
        (demo_server (xml_mail_packet (mail_remove_body 42 "joe" "w"))).xml = true →
      run_main ⟨"admin", "h", "PW", "joe@b", true, some "v", some "w"⟩ demo_env demo_server =
        ⟨"aliases:" :: (extract_aliases
            (demo_server (xml_mail_packet (mail_get_info_body 42 "joe"))).xml).map format_alias,
         [xml_packet (site_get_body "b"), xml_mail_packet (mail_get_info_body 42 "joe"),
          xml_mail_packet (mail_add_body 42 "joe" "v"),
          xml_mail_packet (mail_remove_body 42 "joe" "w")],
         .ok ()⟩) ∧
    (verify_status_ok ["mail", "get_info", "result"]
        (demo_server (xml_mail_packet (mail_get_info_body 42 "joe"))).xml = false →
      run_main ⟨"admin", "h", "PW", "joe@b", true, some "v", some "w"⟩ demo_env demo_server =
        ⟨[], [xml_packet (site_get_body "b"), xml_mail_packet (mail_get_info_body 42 "joe")],
         .error (.exception (notOkayMsg
           (demo_server (xml_mail_packet (mail_get_info_body 42 "joe"))).raw))⟩) ∧
    (verify_status_ok ["mail", "get_info", "result"]
        (demo_server (xml_mail_packet (mail_get_info_body 42 "joe"))).xml = true →
      verify_status_ok ["mail", "update", "add", "result"]
        (demo_server (xml_mail_packet (mail_add_body 42 "joe" "v"))).xml = false →
      run_main ⟨"admin", "h", "PW", "joe@b", true, some "v", some "w"⟩ demo_env demo_server =
        ⟨"aliases:" :: (extract_aliases
            (demo_server (xml_mail_packet (mail_get_info_body 42 "joe"))).xml).map format_alias,
         [xml_packet (site_get_body "b"), xml_mail_packet (mail_get_info_body 42 "joe"),
          xml_mail_packet (mail_add_body 42 "joe" "v")],
         .error (.exception (notOkayMsg
           (demo_server (xml_mail_packet (mail_add_body 42 "joe" "v"))).raw))⟩) :=
  c7_fixed_order_and_abort _ demo_env demo_server "joe" "b" "s3" "v" "w" 42
    rfl rfl (by decide) rfl (by decide) (by decide) (by decide) (by decide) (by decide)
